import Mathlib

/-!
Verification of the push-notification relay (`example-go-fcm`).

The Go sources are shallowly embedded: each handler's `ServeHTTP` becomes a
Lean function from the outcomes of its decode stages (the Go standard
library's `encoding/json` and `encoding/base64` calls, and the external FCM
gateway, are external collaborators and enter as function parameters) to the
HTTP response it writes plus the trace of gateway invocations it performs.
The in-memory token registry is embedded with explicit state passing.
-/

namespace FcmRelay

/-! ## Gateway error model

The firebase admin SDK classifies messaging failures by an error code that
the predicates `messaging.IsInternal`, `messaging.IsUnavailable` and
`messaging.IsQuotaExceeded` inspect.  A Go `error` value is either a coded
messaging error (whose code survives `%w` wrapping) or a plain formatted
error (e.g. from `fmt.Errorf` with `%v`, which severs the chain so the
classifiers see no code). -/

inductive FcmErrorCode where
  | internal
  | unavailable
  | quotaExceeded
  | invalidArgument
  | unregistered
  | senderIdMismatch
  | thirdPartyAuthError
deriving DecidableEq, Repr

/-- A Go error value as the handlers can observe it: a firebase messaging
error with its code intact, or a plain error with only a message. -/
inductive GoErr where
  | fcm (code : FcmErrorCode)
  | plain (msg : String)
deriving DecidableEq, Repr

/-- Go `messaging.IsInternal`. -/
def isInternal : GoErr → Bool
  | .fcm .internal => true
  | _ => false

/-- Go `messaging.IsUnavailable`. -/
def isUnavailable : GoErr → Bool
  | .fcm .unavailable => true
  | _ => false

/-- Go `messaging.IsQuotaExceeded`. -/
def isQuotaExceeded : GoErr → Bool
  | .fcm .quotaExceeded => true
  | _ => false

/-- src/unnamed/part_001 `IsRetryableError`: `nil` is not retryable; an error
is retryable iff it is an internal, unavailable, or quota-exceeded messaging
error. -/
def IsRetryableError (err : Option GoErr) : Bool :=
  match err with
  | none => false
  | some e => isInternal e || isUnavailable e || isQuotaExceeded e

/-! ## HTTP response model -/

/-- The bodies the handlers write: nothing, `http.Error` plain text, or one
of the small JSON objects they encode. -/
inductive ResponseBody where
  | empty
  | text (msg : String)
  | processed (messageId : String)
  | acknowledged (reason : String)
  | processedCounts (successCount failureCount : Nat)
  | message (msg : String)
deriving DecidableEq, Repr

structure HttpResponse where
  status : Nat
  body : ResponseBody
deriving DecidableEq, Repr

/-- One invocation of the gateway client adapter, with the arguments the
handler passed. -/
inductive GatewayCall where
  | sendToToken (token title body : String) (customData : List (String × String))
  | sendToTopic (topic title body : String) (customData : List (String × String))
  | sendToMultipleTokens (tokens : List String) (title body : String)
deriving DecidableEq, Repr

/-! ## Envelope and payload shapes -/

/-- src/handlers/push_handler.go `PubSubPushMessage` (also
`PubSubInternalMessage`): the message part of a Pub/Sub push delivery. -/
structure PubSubPushMessage where
  data : String
  messageId : String
  publishTime : String
deriving DecidableEq, Repr

/-- src/handlers/push_handler.go `PubSubPushRequest`: the whole envelope. -/
structure PubSubPushRequest where
  message : PubSubPushMessage
  subscription : String
deriving DecidableEq, Repr

/-- src/handlers/push_device_handler.go `DevicePushPayload`. -/
structure DevicePushPayload where
  title : String
  body : String
  token : String
  customData : List (String × String)
deriving DecidableEq, Repr

/-- src/handlers/push_topic_handler.go `TopicPushPayload`. -/
structure TopicPushPayload where
  title : String
  body : String
  topic : String
  customData : List (String × String)
deriving DecidableEq, Repr

/-- src/handlers/push_handler.go `ActualMessagePayload`. -/
structure ActualMessagePayload where
  title : String
  body : String
deriving DecidableEq, Repr

/-- Result of a Go standard-library decode step (`encoding/json`,
`encoding/base64`): `none` models a non-nil error. -/
abbrev Parsed (α : Type) := Option α

/-- Go `*messaging.BatchResponse` as the fan-out handler reads it. -/
structure BatchResponse where
  successCount : Nat
  failureCount : Nat
deriving DecidableEq, Repr

/-! ## Token registry (src/unnamed/part_005 `DeviceStore`)

The Go store is a `map[string]bool` holding only `true` values, guarded by a
mutex; it is embedded as the list of keys with explicit state passing. -/

structure DeviceStore where
  tokens : List String
deriving DecidableEq, Repr

/-- `NewDeviceStore`. -/
def NewDeviceStore : DeviceStore := { tokens := [] }

/-- `AddToken`: inserts the token if absent; returns `true` iff it was newly
inserted. -/
def AddToken (s : DeviceStore) (token : String) : DeviceStore × Bool :=
  if token ∈ s.tokens then (s, false)
  else ({ tokens := token :: s.tokens }, true)

/-- `GetTokens`: copies the map's keys out into a freshly built slice
(`var tokens []string` then `append` per key) and leaves the store as it
was. -/
def GetTokens (s : DeviceStore) : List String × DeviceStore :=
  (s.tokens.foldl (fun acc t => acc ++ [t]) [], s)

/-- `RemoveToken`: Go `delete` on the key; no-op if absent. -/
def RemoveToken (s : DeviceStore) (token : String) : DeviceStore :=
  { tokens := s.tokens.filter (fun t => t != token) }

theorem foldl_append_eq (l acc : List String) :
    l.foldl (fun a t => a ++ [t]) acc = acc ++ l := by
  induction l generalizing acc with
  | nil => simp
  | cons x xs ih => simp [List.foldl, ih, List.append_assoc]

theorem GetTokens_fst (s : DeviceStore) : (GetTokens s).fst = s.tokens := by
  simp [GetTokens, foldl_append_eq]

/-! ## Registration handler (src/handlers/registration.go) -/

/-- `RegisterRequest`. -/
structure RegisterRequest where
  token : String
deriving DecidableEq, Repr

/-- Go `unicode.IsSpace`: the Unicode White_Space property. -/
def goIsSpace (c : Char) : Bool :=
  c.val == 9 || c.val == 10 || c.val == 11 || c.val == 12 || c.val == 13 ||
  c.val == 32 || c.val == 0x85 || c.val == 0xA0 || c.val == 0x1680 ||
  (0x2000 ≤ c.val && c.val ≤ 0x200A) ||
  c.val == 0x2028 || c.val == 0x2029 || c.val == 0x202F ||
  c.val == 0x205F || c.val == 0x3000

/-- Go `strings.TrimSpace`: drop leading and trailing White_Space. -/
def goTrimSpace (s : String) : String :=
  String.mk (((s.data.dropWhile goIsSpace).reverse.dropWhile goIsSpace).reverse)

/-- UTF-8 encoded size of one character. -/
def charUtf8Size (c : Char) : Nat :=
  if c.val < 0x80 then 1
  else if c.val < 0x800 then 2
  else if c.val < 0x10000 then 3
  else 4

/-- Go `len` on a string counts the bytes of its UTF-8 encoding. -/
def goStringLen (s : String) : Nat :=
  (s.data.map charUtf8Size).sum

/-- src/handlers/registration.go `maxTokenLength`. -/
def maxTokenLength : Nat := 4096

/-- src/handlers/registration.go `RegistrationHandler.ServeHTTP`: decode the
body, trim the token, reject empty or over-long tokens with 400, otherwise
add to the store and answer 201 (newly added) or 409 (already present). -/
def registrationServeHTTP (method : String) (body : Parsed RegisterRequest)
    (s : DeviceStore) : HttpResponse × DeviceStore :=
  if method ≠ "POST" then
    ({ status := 405, body := .text "Invalid request method" }, s)
  else
    match body with
    | none =>
      ({ status := 400, body := .text "Invalid request body: unable to decode JSON" }, s)
    | some req =>
      let trimmedToken := goTrimSpace req.token
      if trimmedToken = "" then
        ({ status := 400, body := .text "Token is required" }, s)
      else if goStringLen trimmedToken > maxTokenLength then
        ({ status := 400, body := .text "Token exceeds maximum length" }, s)
      else
        let res := AddToken s trimmedToken
        if res.snd then
          ({ status := 201, body := .message "Device token registered successfully" }, res.fst)
        else
          ({ status := 409, body := .message "Device token already exists" }, res.fst)

/-! ## Single-device delivery handler (src/handlers/push_device_handler.go) -/

/-- src/handlers/push_device_handler.go `PushDeviceHandler.ServeHTTP`.
Stage outcomes of the standard-library decoders and the gateway client
enter as parameters: `envelope` is the result of `json.Decode` on the body,
`base64DecodeString` models `base64.StdEncoding.DecodeString`,
`unmarshalDevicePayload` models `json.Unmarshal` into `DevicePushPayload`,
and `sendToToken` is the gateway adapter (Go returns `(string, error)`).
The result is the response written plus the trace of gateway calls. -/
def pushDeviceServeHTTP (method : String)
    (envelope : Parsed PubSubPushRequest)
    (base64DecodeString : String → Parsed (List Nat))
    (unmarshalDevicePayload : List Nat → Parsed DevicePushPayload)
    (sendToToken : String → String → String → List (String × String) → String × Option GoErr) :
    HttpResponse × List GatewayCall :=
  if method ≠ "POST" then
    ({ status := 405, body := .text "Invalid request method" }, [])
  else
    match envelope with
    | none => ({ status := 204, body := .empty }, [])
    | some pubSubReq =>
      if pubSubReq.message.data = "" then
        ({ status := 204, body := .empty }, [])
      else
        match base64DecodeString pubSubReq.message.data with
        | none => ({ status := 204, body := .empty }, [])
        | some decodedData =>
          match unmarshalDevicePayload decodedData with
          | none => ({ status := 204, body := .empty }, [])
          | some payload =>
            if payload.title = "" then ({ status := 204, body := .empty }, [])
            else if payload.body = "" then ({ status := 204, body := .empty }, [])
            else if payload.token = "" then ({ status := 204, body := .empty }, [])
            else
              match sendToToken payload.token payload.title payload.body payload.customData with
              | (_, some e) =>
                if IsRetryableError (some e) then
                  ({ status := 500, body := .text "Failed to send notification via FCM (retryable)" },
                   [GatewayCall.sendToToken payload.token payload.title payload.body payload.customData])
                else
                  ({ status := 204, body := .empty },
                   [GatewayCall.sendToToken payload.token payload.title payload.body payload.customData])
              | (messageID, none) =>
                ({ status := 200, body := .processed messageID },
                 [GatewayCall.sendToToken payload.token payload.title payload.body payload.customData])

/-! ## Topic delivery handler (src/handlers/push_topic_handler.go) -/

/-- src/handlers/push_topic_handler.go `PushTopicHandler.ServeHTTP`, same
shape as the device handler with the topic payload and `SendToTopic`. -/
def pushTopicServeHTTP (method : String)
    (envelope : Parsed PubSubPushRequest)
    (base64DecodeString : String → Parsed (List Nat))
    (unmarshalTopicPayload : List Nat → Parsed TopicPushPayload)
    (sendToTopic : String → String → String → List (String × String) → String × Option GoErr) :
    HttpResponse × List GatewayCall :=
  if method ≠ "POST" then
    ({ status := 405, body := .text "Invalid request method" }, [])
  else
    match envelope with
    | none => ({ status := 204, body := .empty }, [])
    | some pubSubReq =>
      if pubSubReq.message.data = "" then
        ({ status := 204, body := .empty }, [])
      else
        match base64DecodeString pubSubReq.message.data with
        | none => ({ status := 204, body := .empty }, [])
        | some decodedData =>
          match unmarshalTopicPayload decodedData with
          | none => ({ status := 204, body := .empty }, [])
          | some payload =>
            if payload.title = "" then ({ status := 204, body := .empty }, [])
            else if payload.body = "" then ({ status := 204, body := .empty }, [])
            else if payload.topic = "" then ({ status := 204, body := .empty }, [])
            else
              match sendToTopic payload.topic payload.title payload.body payload.customData with
              | (_, some e) =>
                if IsRetryableError (some e) then
                  ({ status := 500, body := .text "Failed to send notification via FCM (retryable)" },
                   [GatewayCall.sendToTopic payload.topic payload.title payload.body payload.customData])
                else
                  ({ status := 204, body := .empty },
                   [GatewayCall.sendToTopic payload.topic payload.title payload.body payload.customData])
              | (messageID, none) =>
                ({ status := 200, body := .processed messageID },
                 [GatewayCall.sendToTopic payload.topic payload.title payload.body payload.customData])

/-! ## Fan-out delivery handler (src/handlers/push_handler.go) -/

/-- src/handlers/push_handler.go `PushHandler.ServeHTTP`: decodes the
envelope (JSON failure → 400), acks an empty `data` with 200, decodes
base64 (failure → 400) and the payload (failure → 400), acks empty
title/body with 200, reads the device store, acks an empty registry with
200, and otherwise multicasts: any adapter error → 503, success → 200 with
the batch counts. -/
def pushServeHTTP (method : String)
    (envelope : Parsed PubSubPushRequest)
    (base64DecodeString : String → Parsed (List Nat))
    (unmarshalActualPayload : List Nat → Parsed ActualMessagePayload)
    (deviceStore : DeviceStore)
    (sendToMultipleTokens : List String → String → String → Except GoErr BatchResponse) :
    HttpResponse × List GatewayCall :=
  if method ≠ "POST" then
    ({ status := 405, body := .text "Invalid request method" }, [])
  else
    match envelope with
    | none => ({ status := 400, body := .text "Invalid request body format" }, [])
    | some req =>
      if req.message.data = "" then
        ({ status := 200, body := .acknowledged "empty message data" }, [])
      else
        match base64DecodeString req.message.data with
        | none => ({ status := 400, body := .text "Invalid message data encoding" }, [])
        | some decodedData =>
          match unmarshalActualPayload decodedData with
          | none => ({ status := 400, body := .text "Invalid actual message payload format" }, [])
          | some payload =>
            if payload.title = "" ∨ payload.body = "" then
              ({ status := 200, body := .acknowledged "empty title or body" }, [])
            else
              if (GetTokens deviceStore).fst.length = 0 then
                ({ status := 200, body := .acknowledged "no registered devices" }, [])
              else
                match sendToMultipleTokens (GetTokens deviceStore).fst payload.title payload.body with
                | .error _ =>
                  ({ status := 503, body := .text "Failed to send notifications via FCM" },
                   [GatewayCall.sendToMultipleTokens (GetTokens deviceStore).fst payload.title payload.body])
                | .ok br =>
                  ({ status := 200, body := .processedCounts br.successCount br.failureCount },
                   [GatewayCall.sendToMultipleTokens (GetTokens deviceStore).fst payload.title payload.body])

/-! ## Later topic-handler revision (src/unnamed/part_007 and part_010) -/

/-- src/unnamed/part_007 `decodeData`: envelope parse, empty-data check and
base64 decode, every failure collapsed into one Go error. -/
def decodeData (envelope : Parsed PubSubPushRequest)
    (base64DecodeString : String → Parsed (List Nat)) : Parsed (List Nat) :=
  match envelope with
  | none => none
  | some pubSubReq =>
    if pubSubReq.message.data = "" then none
    else base64DecodeString pubSubReq.message.data

/-- src/unnamed/part_010 `PushTopicHandler.send` (later revision): validates
the payload and sends, wrapping every failure with `fmt.Errorf` and `%v`
(so the messaging error code is severed and the error reads as plain), and
on success discards the provider message id, returning the empty string. -/
def pushTopicSendRev
    (unmarshalTopicPayload : List Nat → Parsed TopicPushPayload)
    (sendToTopic : String → String → String → List (String × String) → String × Option GoErr)
    (decodedData : List Nat) : (String × Option GoErr) × List GatewayCall :=
  match unmarshalTopicPayload decodedData with
  | none => (("", some (.plain "unmarshalling payload")), [])
  | some payload =>
    if payload.title = "" then (("", some (.plain "title is required in payload")), [])
    else if payload.body = "" then (("", some (.plain "body is required in payload")), [])
    else if payload.topic = "" then (("", some (.plain "topic is required in payload")), [])
    else
      let call := GatewayCall.sendToTopic payload.topic payload.title payload.body payload.customData
      let res := sendToTopic payload.topic payload.title payload.body payload.customData
      match res.snd with
      | some _ => (("", some (.plain "sending FCM message to topic")), [call])
      | none => (("", none), [call])

/-- src/unnamed/part_010 `PushTopicHandler.ServeHTTP` (later revision):
`decodeData` failures ack with 204; `send` errors are classified with
`IsRetryable` (500 if retryable, 204 otherwise); success answers 200 with
whatever message id `send` returned. -/
def pushTopicServeHTTPRev (method : String)
    (envelope : Parsed PubSubPushRequest)
    (base64DecodeString : String → Parsed (List Nat))
    (unmarshalTopicPayload : List Nat → Parsed TopicPushPayload)
    (sendToTopic : String → String → String → List (String × String) → String × Option GoErr) :
    HttpResponse × List GatewayCall :=
  if method ≠ "POST" then
    ({ status := 405, body := .text "Invalid request method" }, [])
  else
    match decodeData envelope base64DecodeString with
    | none => ({ status := 204, body := .empty }, [])
    | some decodedData =>
      let res := pushTopicSendRev unmarshalTopicPayload sendToTopic decodedData
      match res.fst.snd with
      | some e =>
        if IsRetryableError (some e) then
          ({ status := 500, body := .text "Failed to send notification via FCM (retryable)" }, res.snd)
        else
          ({ status := 204, body := .empty }, res.snd)
      | none =>
        ({ status := 200, body := .processed res.fst.fst }, res.snd)

/-! ## Multi-token delivery handler (absent from src/) -/

/-- src/unnamed/part_014 `PushDeviceRequest`: the multi-token business
payload with a `tokens` array (design document src/unnamed/part_000). -/
structure PushDeviceRequest where
  title : String
  body : String
  tokens : List String
deriving DecidableEq, Repr

/-- Modelled from the spec: the multi-token delivery handler (the
`PushDeviceHandler` revision taking a `PushDeviceRequest` with a `tokens`
array) is missing from src/ — only its test (src/unnamed/part_014) and the
API document (src/unnamed/part_000) remain.  Per the spec it validates the
required fields and `1 ≤ len(tokens) ≤ 500` before dispatch, answering 400
on any validation failure, 503 on a wholesale adapter error, and 200 with
the batch counts on success. -/
def multiTokenServeHTTP (method : String)
    (body : Parsed PushDeviceRequest)
    (sendToMultipleTokens : List String → String → String → Except GoErr BatchResponse) :
    HttpResponse × List GatewayCall :=
  if method ≠ "POST" then
    ({ status := 405, body := .text "Invalid request method" }, [])
  else
    match body with
    | none => ({ status := 400, body := .text "Invalid request body format" }, [])
    | some req =>
      if req.title = "" then ({ status := 400, body := .text "Title is required" }, [])
      else if req.body = "" then ({ status := 400, body := .text "Body is required" }, [])
      else if req.tokens.length = 0 then ({ status := 400, body := .text "Tokens are required" }, [])
      else if req.tokens.length > 500 then ({ status := 400, body := .text "Too many tokens" }, [])
      else
        match sendToMultipleTokens req.tokens req.title req.body with
        | .error _ =>
          ({ status := 503, body := .text "Failed to send notifications via FCM" },
           [GatewayCall.sendToMultipleTokens req.tokens req.title req.body])
        | .ok br =>
          ({ status := 200, body := .processedCounts br.successCount br.failureCount },
           [GatewayCall.sendToMultipleTokens req.tokens req.title req.body])

/-! ## Helper lemmas and concrete fixtures -/

theorem dropWhile_replicate_not (p : Char → Bool) (c : Char) (n : Nat)
    (h : p c = false) :
    List.dropWhile p (List.replicate n c) = List.replicate n c := by
  cases n with
  | zero => simp
  | succ m => simp [List.replicate_succ, List.dropWhile_cons, h]

theorem goTrimSpace_replicate (c : Char) (n : Nat) (h : goIsSpace c = false) :
    goTrimSpace (String.mk (List.replicate n c)) = String.mk (List.replicate n c) := by
  simp [goTrimSpace, dropWhile_replicate_not _ _ _ h, List.reverse_replicate]

theorem goStringLen_replicate (c : Char) (n : Nat) :
    goStringLen (String.mk (List.replicate n c)) = n * charUtf8Size c := by
  simp [goStringLen, List.map_replicate, List.sum_replicate, smul_eq_mul]

theorem string_mk_ne_empty (l : List Char) (h : l ≠ []) : String.mk l ≠ "" := by
  intro heq
  apply h
  have hdata : (String.mk l).data = ("" : String).data := by rw [heq]
  simpa using hdata

/-- A well-formed sample envelope used to instantiate witnesses. -/
def sampleEnvelope : PubSubPushRequest :=
  { message := { data := "eyJ0aXRsZSI6IlQifQ==", messageId := "m-1",
                 publishTime := "2024-01-01T00:00:00Z" },
    subscription := "projects/p/subscriptions/s" }

/-- Sample device payload for witnesses. -/
def sampleDevicePayload : DevicePushPayload :=
  { title := "T", body := "B", token := "tok-1", customData := [("k", "v")] }

/-- Sample topic payload for witnesses. -/
def sampleTopicPayload : TopicPushPayload :=
  { title := "T", body := "B", topic := "news", customData := [("k", "v")] }

/-- Sample fan-out payload for witnesses. -/
def sampleActualPayload : ActualMessagePayload := { title := "T", body := "B" }

/-! ## Claims -/

/-- C10: a well-formed fan-out delivery (valid envelope, non-empty data,
base64 and payload decode succeed, non-empty title and body) arriving while
the token registry is empty is answered 200 with an acknowledged body whose
reason is "no registered devices", and the multicast send is never
invoked. -/
theorem C10_fanout_empty_registry_acks
    (envelope : Parsed PubSubPushRequest)
    (b64 : String → Parsed (List Nat))
    (um : List Nat → Parsed ActualMessagePayload)
    (s : DeviceStore)
    (send : List String → String → String → Except GoErr BatchResponse)
    (req : PubSubPushRequest) (bytes : List Nat) (payload : ActualMessagePayload)
    (henv : envelope = some req) (hdata : req.message.data ≠ "")
    (hb64 : b64 req.message.data = some bytes)
    (hum : um bytes = some payload)
    (htitle : payload.title ≠ "") (hbody : payload.body ≠ "")
    (hstore : s.tokens = []) :
    pushServeHTTP "POST" envelope b64 um s send =
      ({ status := 200, body := .acknowledged "no registered devices" }, []) := by
  subst henv
  simp [pushServeHTTP, hdata, hb64, hum, htitle, hbody, GetTokens_fst, hstore]

theorem C10_witness :
    pushServeHTTP "POST" (some sampleEnvelope) (fun _ => some [1])
      (fun _ => some sampleActualPayload) NewDeviceStore
      (fun _ _ _ => .ok { successCount := 0, failureCount := 0 }) =
      ({ status := 200, body := .acknowledged "no registered devices" }, []) :=
  C10_fanout_empty_registry_acks (some sampleEnvelope) (fun _ => some [1])
    (fun _ => some sampleActualPayload) NewDeviceStore
    (fun _ _ _ => .ok { successCount := 0, failureCount := 0 })
    sampleEnvelope [1] sampleActualPayload rfl (by decide) rfl rfl
    (by decide) (by decide) rfl

/-- C6: registering a token that is absent answers 201 and inserts it;
registering the same token again answers 409 and leaves the registry
unchanged, so after the two registrations the registry holds exactly one
entry for the token. -/
theorem C6_register_twice (s : DeviceStore) (t : String)
    (hne : goTrimSpace t ≠ "")
    (hlen : goStringLen (goTrimSpace t) ≤ maxTokenLength)
    (habs : goTrimSpace t ∉ s.tokens) :
    (registrationServeHTTP "POST" (some { token := t }) s).fst.status = 201 ∧
    goTrimSpace t ∈ ((registrationServeHTTP "POST" (some { token := t }) s).snd).tokens ∧
    (registrationServeHTTP "POST" (some { token := t })
        ((registrationServeHTTP "POST" (some { token := t }) s).snd)).fst.status = 409 ∧
    (registrationServeHTTP "POST" (some { token := t })
        ((registrationServeHTTP "POST" (some { token := t }) s).snd)).snd =
      (registrationServeHTTP "POST" (some { token := t }) s).snd ∧
    ((registrationServeHTTP "POST" (some { token := t })
        ((registrationServeHTTP "POST" (some { token := t }) s).snd)).snd).tokens.count
      (goTrimSpace t) = 1 := by
  have hlen2 : ¬ goStringLen (goTrimSpace t) > maxTokenLength := by omega
  have hcount : s.tokens.count (goTrimSpace t) = 0 := List.count_eq_zero.mpr habs
  refine ⟨?_, ?_, ?_, ?_, ?_⟩ <;>
    simp [registrationServeHTTP, AddToken, hne, hlen2, habs, hcount]

theorem C6_witness :
    (registrationServeHTTP "POST" (some { token := "tok-1" }) NewDeviceStore).fst.status = 201 ∧
    goTrimSpace "tok-1" ∈
      ((registrationServeHTTP "POST" (some { token := "tok-1" }) NewDeviceStore).snd).tokens ∧
    (registrationServeHTTP "POST" (some { token := "tok-1" })
        ((registrationServeHTTP "POST" (some { token := "tok-1" }) NewDeviceStore).snd)).fst.status = 409 ∧
    (registrationServeHTTP "POST" (some { token := "tok-1" })
        ((registrationServeHTTP "POST" (some { token := "tok-1" }) NewDeviceStore).snd)).snd =
      (registrationServeHTTP "POST" (some { token := "tok-1" }) NewDeviceStore).snd ∧
    ((registrationServeHTTP "POST" (some { token := "tok-1" })
        ((registrationServeHTTP "POST" (some { token := "tok-1" }) NewDeviceStore).snd)).snd).tokens.count
      (goTrimSpace "tok-1") = 1 :=
  C6_register_twice NewDeviceStore "tok-1" (by decide) (by decide) (by decide)

/-- C3: when the gateway send fails with an error classified retryable by
`IsRetryableError` (internal, unavailable, or quota-exceeded), the device
and topic handlers answer 500 and the fan-out handler answers 503 — in
every case a 5xx status, so the queue redelivers. -/
theorem C3_retryable_error_5xx :
    (∀ (b64 : String → Parsed (List Nat))
       (um : List Nat → Parsed DevicePushPayload)
       (sendTok : String → String → String → List (String × String) → String × Option GoErr)
       (req : PubSubPushRequest) (bytes : List Nat) (p : DevicePushPayload) (e : GoErr),
      req.message.data ≠ "" → b64 req.message.data = some bytes → um bytes = some p →
      p.title ≠ "" → p.body ≠ "" → p.token ≠ "" →
      (sendTok p.token p.title p.body p.customData).snd = some e →
      IsRetryableError (some e) = true →
      (pushDeviceServeHTTP "POST" (some req) b64 um sendTok).fst.status = 500) ∧
    (∀ (b64 : String → Parsed (List Nat))
       (um : List Nat → Parsed TopicPushPayload)
       (sendTop : String → String → String → List (String × String) → String × Option GoErr)
       (req : PubSubPushRequest) (bytes : List Nat) (p : TopicPushPayload) (e : GoErr),
      req.message.data ≠ "" → b64 req.message.data = some bytes → um bytes = some p →
      p.title ≠ "" → p.body ≠ "" → p.topic ≠ "" →
      (sendTop p.topic p.title p.body p.customData).snd = some e →
      IsRetryableError (some e) = true →
      (pushTopicServeHTTP "POST" (some req) b64 um sendTop).fst.status = 500) ∧
    (∀ (b64 : String → Parsed (List Nat))
       (um : List Nat → Parsed ActualMessagePayload)
       (s : DeviceStore)
       (sendMul : List String → String → String → Except GoErr BatchResponse)
       (req : PubSubPushRequest) (bytes : List Nat) (p : ActualMessagePayload) (e : GoErr),
      req.message.data ≠ "" → b64 req.message.data = some bytes → um bytes = some p →
      p.title ≠ "" → p.body ≠ "" → s.tokens ≠ [] →
      sendMul (GetTokens s).fst p.title p.body = .error e →
      (pushServeHTTP "POST" (some req) b64 um s sendMul).fst.status = 503) := by
  refine ⟨?_, ?_, ?_⟩
  · intro b64 um sendTok req bytes p e hdata hb64 hum ht hb htok hsend hretry
    rcases hp : sendTok p.token p.title p.body p.customData with ⟨mid, err⟩
    rw [hp] at hsend
    simp at hsend
    subst hsend
    simp [pushDeviceServeHTTP, hdata, hb64, hum, ht, hb, htok, hp, hretry]
  · intro b64 um sendTop req bytes p e hdata hb64 hum ht hb htop hsend hretry
    rcases hp : sendTop p.topic p.title p.body p.customData with ⟨mid, err⟩
    rw [hp] at hsend
    simp at hsend
    subst hsend
    simp [pushTopicServeHTTP, hdata, hb64, hum, ht, hb, htop, hp, hretry]
  · intro b64 um s sendMul req bytes p e hdata hb64 hum ht hb hs hsend
    have hlen : ¬ (GetTokens s).fst.length = 0 := by
      simpa [GetTokens_fst, List.length_eq_zero] using hs
    simp [pushServeHTTP, hdata, hb64, hum, ht, hb, hlen, hsend]

theorem C3_witness :
    (pushDeviceServeHTTP "POST" (some sampleEnvelope) (fun _ => some [1])
        (fun _ => some sampleDevicePayload)
        (fun _ _ _ _ => ("", some (.fcm .unavailable)))).fst.status = 500 ∧
    (pushTopicServeHTTP "POST" (some sampleEnvelope) (fun _ => some [1])
        (fun _ => some sampleTopicPayload)
        (fun _ _ _ _ => ("", some (.fcm .internal)))).fst.status = 500 ∧
    (pushServeHTTP "POST" (some sampleEnvelope) (fun _ => some [1])
        (fun _ => some sampleActualPayload) { tokens := ["tok-1"] }
        (fun _ _ _ => .error (.fcm .quotaExceeded))).fst.status = 503 :=
  ⟨C3_retryable_error_5xx.1 (fun _ => some [1]) (fun _ => some sampleDevicePayload)
      (fun _ _ _ _ => ("", some (.fcm .unavailable))) sampleEnvelope [1]
      sampleDevicePayload (.fcm .unavailable) (by decide) rfl rfl
      (by decide) (by decide) (by decide) rfl (by decide),
   C3_retryable_error_5xx.2.1 (fun _ => some [1]) (fun _ => some sampleTopicPayload)
      (fun _ _ _ _ => ("", some (.fcm .internal))) sampleEnvelope [1]
      sampleTopicPayload (.fcm .internal) (by decide) rfl rfl
      (by decide) (by decide) (by decide) rfl (by decide),
   C3_retryable_error_5xx.2.2 (fun _ => some [1]) (fun _ => some sampleActualPayload)
      { tokens := ["tok-1"] } (fun _ _ _ => .error (.fcm .quotaExceeded)) sampleEnvelope [1]
      sampleActualPayload (.fcm .quotaExceeded) (by decide) rfl rfl
      (by decide) (by decide) (by decide) rfl⟩

/-- C9: `GetTokens` returns a copy-out snapshot: it contains exactly the
tokens present at the call, it leaves the registry unchanged, and — in the
state-passing rendering of non-aliasing — a later mutation of the registry
does not reach an earlier snapshot: the old snapshot lacks a token added
afterwards, while a fresh snapshot of the mutated registry has it. -/
theorem C9_getTokens_snapshot (s : DeviceStore) (tok : String)
    (habs : tok ∉ s.tokens) :
    (∀ t, t ∈ (GetTokens s).fst ↔ t ∈ s.tokens) ∧
    (GetTokens s).snd = s ∧
    tok ∉ (GetTokens s).fst ∧
    tok ∈ (GetTokens (AddToken (GetTokens s).snd tok).fst).fst := by
  refine ⟨?_, rfl, ?_, ?_⟩
  · intro t; rw [GetTokens_fst]
  · rw [GetTokens_fst]; exact habs
  · simp only [GetTokens_fst]
    have hsnd : (GetTokens s).snd = s := rfl
    rw [hsnd]
    simp [AddToken, habs]

theorem C9_witness :
    (∀ t, t ∈ (GetTokens { tokens := ["a", "b"] }).fst ↔ t ∈ ["a", "b"]) ∧
    (GetTokens { tokens := ["a", "b"] }).snd = { tokens := ["a", "b"] } ∧
    "c" ∉ (GetTokens { tokens := ["a", "b"] }).fst ∧
    "c" ∈ (GetTokens (AddToken (GetTokens { tokens := ["a", "b"] }).snd "c").fst).fst :=
  C9_getTokens_snapshot { tokens := ["a", "b"] } "c" (by decide)

/-- Well-formedness of one gateway invocation: the notification fields and
the target are non-empty (a non-empty token list for multicast). -/
def gatewayCallWellFormed : GatewayCall → Prop
  | .sendToToken token title body _ => token ≠ "" ∧ title ≠ "" ∧ body ≠ ""
  | .sendToTopic topic title body _ => topic ≠ "" ∧ title ≠ "" ∧ body ≠ ""
  | .sendToMultipleTokens tokens title body => tokens ≠ [] ∧ title ≠ "" ∧ body ≠ ""

/-- C8: whenever any delivery handler invokes the gateway adapter, the
title, body and token/topic target it passes are non-empty (and the
multicast token list non-empty), and for the device and topic handlers the
call is exactly the parsed payload's fields — in particular the optional
custom_data map is handed to the gateway verbatim. -/
theorem C8_gateway_invocation_invariant :
    (∀ (method : String) (env : Parsed PubSubPushRequest)
       (b64 : String → Parsed (List Nat))
       (um : List Nat → Parsed DevicePushPayload)
       (sendTok : String → String → String → List (String × String) → String × Option GoErr)
       (c : GatewayCall), c ∈ (pushDeviceServeHTTP method env b64 um sendTok).snd →
      gatewayCallWellFormed c ∧
      ∃ bytes p, um bytes = some p ∧
        c = GatewayCall.sendToToken p.token p.title p.body p.customData) ∧
    (∀ (method : String) (env : Parsed PubSubPushRequest)
       (b64 : String → Parsed (List Nat))
       (um : List Nat → Parsed TopicPushPayload)
       (sendTop : String → String → String → List (String × String) → String × Option GoErr)
       (c : GatewayCall), c ∈ (pushTopicServeHTTP method env b64 um sendTop).snd →
      gatewayCallWellFormed c ∧
      ∃ bytes p, um bytes = some p ∧
        c = GatewayCall.sendToTopic p.topic p.title p.body p.customData) ∧
    (∀ (method : String) (env : Parsed PubSubPushRequest)
       (b64 : String → Parsed (List Nat))
       (um : List Nat → Parsed ActualMessagePayload)
       (s : DeviceStore)
       (sendMul : List String → String → String → Except GoErr BatchResponse)
       (c : GatewayCall), c ∈ (pushServeHTTP method env b64 um s sendMul).snd →
      gatewayCallWellFormed c) := by
  refine ⟨?_, ?_, ?_⟩
  · intro method env b64 um sendTok c hc
    unfold pushDeviceServeHTTP at hc
    split at hc
    · simp at hc
    · split at hc
      · simp at hc
      · split at hc
        · simp at hc
        · split at hc
          · simp at hc
          · rename_i decodedData hdd
            split at hc
            · simp at hc
            · rename_i payload hpay
              split at hc
              · simp at hc
              · split at hc
                · simp at hc
                · split at hc
                  · simp at hc
                  · rename_i htitle hbody htok
                    have hwf : gatewayCallWellFormed
                        (GatewayCall.sendToToken payload.token payload.title
                          payload.body payload.customData) :=
                      ⟨htok, htitle, hbody⟩
                    split at hc
                    · split at hc <;>
                        (simp at hc; subst hc;
                         exact ⟨hwf, decodedData, payload, hpay, rfl⟩)
                    · simp at hc; subst hc
                      exact ⟨hwf, decodedData, payload, hpay, rfl⟩
  · intro method env b64 um sendTop c hc
    unfold pushTopicServeHTTP at hc
    split at hc
    · simp at hc
    · split at hc
      · simp at hc
      · split at hc
        · simp at hc
        · split at hc
          · simp at hc
          · rename_i decodedData hdd
            split at hc
            · simp at hc
            · rename_i payload hpay
              split at hc
              · simp at hc
              · split at hc
                · simp at hc
                · split at hc
                  · simp at hc
                  · rename_i htitle hbody htop
                    have hwf : gatewayCallWellFormed
                        (GatewayCall.sendToTopic payload.topic payload.title
                          payload.body payload.customData) :=
                      ⟨htop, htitle, hbody⟩
                    split at hc
                    · split at hc <;>
                        (simp at hc; subst hc;
                         exact ⟨hwf, decodedData, payload, hpay, rfl⟩)
                    · simp at hc; subst hc
                      exact ⟨hwf, decodedData, payload, hpay, rfl⟩
  · intro method env b64 um s sendMul c hc
    unfold pushServeHTTP at hc
    split at hc
    · simp at hc
    · split at hc
      · simp at hc
      · split at hc
        · simp at hc
        · split at hc
          · simp at hc
          · split at hc
            · simp at hc
            · rename_i payload hpay
              split at hc
              · simp at hc
              · rename_i hnotempty
                split at hc
                · simp at hc
                · rename_i hlen
                  have hwf : gatewayCallWellFormed
                      (GatewayCall.sendToMultipleTokens (GetTokens s).fst
                        payload.title payload.body) := by
                    refine ⟨?_, ?_, ?_⟩
                    · intro hnil
                      exact hlen (by rw [hnil]; rfl)
                    · intro ht; exact hnotempty (Or.inl ht)
                    · intro hb; exact hnotempty (Or.inr hb)
                  split at hc <;> (simp at hc; subst hc; exact hwf)

theorem C8_witness :
    gatewayCallWellFormed
      (GatewayCall.sendToToken sampleDevicePayload.token sampleDevicePayload.title
        sampleDevicePayload.body sampleDevicePayload.customData) ∧
    ∃ bytes p, (fun (_ : List Nat) => some sampleDevicePayload) bytes = some p ∧
      GatewayCall.sendToToken sampleDevicePayload.token sampleDevicePayload.title
        sampleDevicePayload.body sampleDevicePayload.customData =
        GatewayCall.sendToToken p.token p.title p.body p.customData :=
  C8_gateway_invocation_invariant.1 "POST" (some sampleEnvelope) (fun _ => some [1])
    (fun _ => some sampleDevicePayload) (fun _ _ _ _ => ("id-1", none))
    (GatewayCall.sendToToken sampleDevicePayload.token sampleDevicePayload.title
      sampleDevicePayload.body sampleDevicePayload.customData)
    (by simp [pushDeviceServeHTTP, sampleEnvelope, sampleDevicePayload])

/-- C1 is false as stated: a POST whose envelope fails to parse as JSON is
answered 400 by the fan-out handler — neither 204 nor a 200 acknowledged
body. -/
theorem C1_counterexample :
    (pushServeHTTP "POST" none (fun _ => none) (fun _ => none) NewDeviceStore
        (fun _ _ _ => .ok { successCount := 0, failureCount := 0 })).fst.status = 400 ∧
    ¬ ((pushServeHTTP "POST" none (fun _ => none) (fun _ => none) NewDeviceStore
          (fun _ _ _ => .ok { successCount := 0, failureCount := 0 })).fst.status = 204 ∨
       (pushServeHTTP "POST" none (fun _ => none) (fun _ => none) NewDeviceStore
          (fun _ _ _ => .ok { successCount := 0, failureCount := 0 })).fst.status = 200) := by
  exact ⟨rfl, by decide⟩

/-- C1 (amended): no decode or validation failure ever invokes the gateway
client; the device and topic handlers answer 204 for all of them, and the
fan-out handler answers 200 with an acknowledged body for empty title/body
but 400 for an envelope JSON parse failure, a base64 decode failure, or a
payload JSON parse failure. -/
theorem C1_decode_failures_never_reach_gateway :
    (∀ (b64 : String → Parsed (List Nat)) (um : List Nat → Parsed DevicePushPayload)
       (sendTok : String → String → String → List (String × String) → String × Option GoErr),
      pushDeviceServeHTTP "POST" none b64 um sendTok = ({ status := 204, body := .empty }, [])) ∧
    (∀ (req : PubSubPushRequest) (b64 : String → Parsed (List Nat))
       (um : List Nat → Parsed DevicePushPayload)
       (sendTok : String → String → String → List (String × String) → String × Option GoErr),
      req.message.data ≠ "" → b64 req.message.data = none →
      pushDeviceServeHTTP "POST" (some req) b64 um sendTok = ({ status := 204, body := .empty }, [])) ∧
    (∀ (req : PubSubPushRequest) (b64 : String → Parsed (List Nat))
       (um : List Nat → Parsed DevicePushPayload)
       (sendTok : String → String → String → List (String × String) → String × Option GoErr)
       (bytes : List Nat),
      req.message.data ≠ "" → b64 req.message.data = some bytes → um bytes = none →
      pushDeviceServeHTTP "POST" (some req) b64 um sendTok = ({ status := 204, body := .empty }, [])) ∧
    (∀ (req : PubSubPushRequest) (b64 : String → Parsed (List Nat))
       (um : List Nat → Parsed DevicePushPayload)
       (sendTok : String → String → String → List (String × String) → String × Option GoErr)
       (bytes : List Nat) (p : DevicePushPayload),
      req.message.data ≠ "" → b64 req.message.data = some bytes → um bytes = some p →
      (p.title = "" ∨ p.body = "" ∨ p.token = "") →
      pushDeviceServeHTTP "POST" (some req) b64 um sendTok = ({ status := 204, body := .empty }, [])) ∧
    (∀ (b64 : String → Parsed (List Nat)) (um : List Nat → Parsed TopicPushPayload)
       (sendTop : String → String → String → List (String × String) → String × Option GoErr),
      pushTopicServeHTTP "POST" none b64 um sendTop = ({ status := 204, body := .empty }, [])) ∧
    (∀ (req : PubSubPushRequest) (b64 : String → Parsed (List Nat))
       (um : List Nat → Parsed TopicPushPayload)
       (sendTop : String → String → String → List (String × String) → String × Option GoErr),
      req.message.data ≠ "" → b64 req.message.data = none →
      pushTopicServeHTTP "POST" (some req) b64 um sendTop = ({ status := 204, body := .empty }, [])) ∧
    (∀ (req : PubSubPushRequest) (b64 : String → Parsed (List Nat))
       (um : List Nat → Parsed TopicPushPayload)
       (sendTop : String → String → String → List (String × String) → String × Option GoErr)
       (bytes : List Nat),
      req.message.data ≠ "" → b64 req.message.data = some bytes → um bytes = none →
      pushTopicServeHTTP "POST" (some req) b64 um sendTop = ({ status := 204, body := .empty }, [])) ∧
    (∀ (req : PubSubPushRequest) (b64 : String → Parsed (List Nat))
       (um : List Nat → Parsed TopicPushPayload)
       (sendTop : String → String → String → List (String × String) → String × Option GoErr)
       (bytes : List Nat) (p : TopicPushPayload),
      req.message.data ≠ "" → b64 req.message.data = some bytes → um bytes = some p →
      (p.title = "" ∨ p.body = "" ∨ p.topic = "") →
      pushTopicServeHTTP "POST" (some req) b64 um sendTop = ({ status := 204, body := .empty }, [])) ∧
    (∀ (b64 : String → Parsed (List Nat)) (um : List Nat → Parsed ActualMessagePayload)
       (s : DeviceStore)
       (sendMul : List String → String → String → Except GoErr BatchResponse),
      pushServeHTTP "POST" none b64 um s sendMul =
        ({ status := 400, body := .text "Invalid request body format" }, [])) ∧
    (∀ (req : PubSubPushRequest) (b64 : String → Parsed (List Nat))
       (um : List Nat → Parsed ActualMessagePayload) (s : DeviceStore)
       (sendMul : List String → String → String → Except GoErr BatchResponse),
      req.message.data ≠ "" → b64 req.message.data = none →
      pushServeHTTP "POST" (some req) b64 um s sendMul =
        ({ status := 400, body := .text "Invalid message data encoding" }, [])) ∧
    (∀ (req : PubSubPushRequest) (b64 : String → Parsed (List Nat))
       (um : List Nat → Parsed ActualMessagePayload) (s : DeviceStore)
       (sendMul : List String → String → String → Except GoErr BatchResponse)
       (bytes : List Nat),
      req.message.data ≠ "" → b64 req.message.data = some bytes → um bytes = none →
      pushServeHTTP "POST" (some req) b64 um s sendMul =
        ({ status := 400, body := .text "Invalid actual message payload format" }, [])) ∧
    (∀ (req : PubSubPushRequest) (b64 : String → Parsed (List Nat))
       (um : List Nat → Parsed ActualMessagePayload) (s : DeviceStore)
       (sendMul : List String → String → String → Except GoErr BatchResponse)
       (bytes : List Nat) (p : ActualMessagePayload),
      req.message.data ≠ "" → b64 req.message.data = some bytes → um bytes = some p →
      (p.title = "" ∨ p.body = "") →
      pushServeHTTP "POST" (some req) b64 um s sendMul =
        ({ status := 200, body := .acknowledged "empty title or body" }, [])) := by
  refine ⟨?_, ?_, ?_, ?_, ?_, ?_, ?_, ?_, ?_, ?_, ?_, ?_⟩
  · intro b64 um sendTok
    simp [pushDeviceServeHTTP]
  · intro req b64 um sendTok hdata hb64
    simp [pushDeviceServeHTTP, hdata, hb64]
  · intro req b64 um sendTok bytes hdata hb64 hum
    simp [pushDeviceServeHTTP, hdata, hb64, hum]
  · intro req b64 um sendTok bytes p hdata hb64 hum hmiss
    by_cases h1 : p.title = "" <;> by_cases h2 : p.body = "" <;>
      by_cases h3 : p.token = "" <;>
      simp [pushDeviceServeHTTP, hdata, hb64, hum, h1, h2, h3]
    rcases hmiss with h | h | h <;> contradiction
  · intro b64 um sendTop
    simp [pushTopicServeHTTP]
  · intro req b64 um sendTop hdata hb64
    simp [pushTopicServeHTTP, hdata, hb64]
  · intro req b64 um sendTop bytes hdata hb64 hum
    simp [pushTopicServeHTTP, hdata, hb64, hum]
  · intro req b64 um sendTop bytes p hdata hb64 hum hmiss
    by_cases h1 : p.title = "" <;> by_cases h2 : p.body = "" <;>
      by_cases h3 : p.topic = "" <;>
      simp [pushTopicServeHTTP, hdata, hb64, hum, h1, h2, h3]
    rcases hmiss with h | h | h <;> contradiction
  · intro b64 um s sendMul
    simp [pushServeHTTP]
  · intro req b64 um s sendMul hdata hb64
    simp [pushServeHTTP, hdata, hb64]
  · intro req b64 um s sendMul bytes hdata hb64 hum
    simp [pushServeHTTP, hdata, hb64, hum]
  · intro req b64 um s sendMul bytes p hdata hb64 hum hmiss
    simp [pushServeHTTP, hdata, hb64, hum, hmiss]

theorem C1_witness :
    pushDeviceServeHTTP "POST" none (fun _ => none) (fun _ => none)
      (fun _ _ _ _ => ("", none)) = ({ status := 204, body := .empty }, []) ∧
    pushServeHTTP "POST" (some sampleEnvelope) (fun _ => some [1])
      (fun _ => some { title := "", body := "B" }) NewDeviceStore
      (fun _ _ _ => .ok { successCount := 0, failureCount := 0 }) =
      ({ status := 200, body := .acknowledged "empty title or body" }, []) :=
  ⟨C1_decode_failures_never_reach_gateway.1 (fun _ => none) (fun _ => none)
      (fun _ _ _ _ => ("", none)),
   C1_decode_failures_never_reach_gateway.2.2.2.2.2.2.2.2.2.2.2 sampleEnvelope
      (fun _ => some [1]) (fun _ => some { title := "", body := "B" }) NewDeviceStore
      (fun _ _ _ => .ok { successCount := 0, failureCount := 0 }) [1]
      { title := "", body := "B" } (by decide) rfl rfl (Or.inl rfl)⟩

/-- C2 is false as stated: a gateway error classified non-retryable makes
the fan-out handler answer 503, not 204. -/
theorem C2_counterexample :
    IsRetryableError (some (.fcm .invalidArgument)) = false ∧
    (pushServeHTTP "POST" (some sampleEnvelope) (fun _ => some [1])
        (fun _ => some sampleActualPayload) { tokens := ["tok-1"] }
        (fun _ _ _ => .error (.fcm .invalidArgument))).fst.status = 503 ∧
    (503 : Nat) ≠ 204 := by
  exact ⟨rfl, rfl, by decide⟩

/-- C2 (amended): on a gateway error classified non-retryable the device
and topic handlers answer 204 (ack, drop); the fan-out handler instead
answers 503 for every adapter-level error, without consulting the
classification. -/
theorem C2_nonretryable_error_ack :
    (∀ (b64 : String → Parsed (List Nat))
       (um : List Nat → Parsed DevicePushPayload)
       (sendTok : String → String → String → List (String × String) → String × Option GoErr)
       (req : PubSubPushRequest) (bytes : List Nat) (p : DevicePushPayload) (e : GoErr),
      req.message.data ≠ "" → b64 req.message.data = some bytes → um bytes = some p →
      p.title ≠ "" → p.body ≠ "" → p.token ≠ "" →
      (sendTok p.token p.title p.body p.customData).snd = some e →
      IsRetryableError (some e) = false →
      (pushDeviceServeHTTP "POST" (some req) b64 um sendTok).fst.status = 204) ∧
    (∀ (b64 : String → Parsed (List Nat))
       (um : List Nat → Parsed TopicPushPayload)
       (sendTop : String → String → String → List (String × String) → String × Option GoErr)
       (req : PubSubPushRequest) (bytes : List Nat) (p : TopicPushPayload) (e : GoErr),
      req.message.data ≠ "" → b64 req.message.data = some bytes → um bytes = some p →
      p.title ≠ "" → p.body ≠ "" → p.topic ≠ "" →
      (sendTop p.topic p.title p.body p.customData).snd = some e →
      IsRetryableError (some e) = false →
      (pushTopicServeHTTP "POST" (some req) b64 um sendTop).fst.status = 204) ∧
    (∀ (b64 : String → Parsed (List Nat))
       (um : List Nat → Parsed ActualMessagePayload)
       (s : DeviceStore)
       (sendMul : List String → String → String → Except GoErr BatchResponse)
       (req : PubSubPushRequest) (bytes : List Nat) (p : ActualMessagePayload) (e : GoErr),
      req.message.data ≠ "" → b64 req.message.data = some bytes → um bytes = some p →
      p.title ≠ "" → p.body ≠ "" → s.tokens ≠ [] →
      sendMul (GetTokens s).fst p.title p.body = .error e →
      (pushServeHTTP "POST" (some req) b64 um s sendMul).fst.status = 503) := by
  refine ⟨?_, ?_, ?_⟩
  · intro b64 um sendTok req bytes p e hdata hb64 hum ht hb htok hsend hretry
    rcases hp : sendTok p.token p.title p.body p.customData with ⟨mid, err⟩
    rw [hp] at hsend
    simp at hsend
    subst hsend
    simp [pushDeviceServeHTTP, hdata, hb64, hum, ht, hb, htok, hp, hretry]
  · intro b64 um sendTop req bytes p e hdata hb64 hum ht hb htop hsend hretry
    rcases hp : sendTop p.topic p.title p.body p.customData with ⟨mid, err⟩
    rw [hp] at hsend
    simp at hsend
    subst hsend
    simp [pushTopicServeHTTP, hdata, hb64, hum, ht, hb, htop, hp, hretry]
  · intro b64 um s sendMul req bytes p e hdata hb64 hum ht hb hs hsend
    have hlen : ¬ (GetTokens s).fst.length = 0 := by
      simpa [GetTokens_fst, List.length_eq_zero] using hs
    simp [pushServeHTTP, hdata, hb64, hum, ht, hb, hlen, hsend]

theorem C2_witness :
    (pushDeviceServeHTTP "POST" (some sampleEnvelope) (fun _ => some [1])
        (fun _ => some sampleDevicePayload)
        (fun _ _ _ _ => ("", some (.fcm .unregistered)))).fst.status = 204 ∧
    (pushServeHTTP "POST" (some sampleEnvelope) (fun _ => some [1])
        (fun _ => some sampleActualPayload) { tokens := ["tok-1"] }
        (fun _ _ _ => .error (.fcm .unregistered))).fst.status = 503 :=
  ⟨C2_nonretryable_error_ack.1 (fun _ => some [1]) (fun _ => some sampleDevicePayload)
      (fun _ _ _ _ => ("", some (.fcm .unregistered))) sampleEnvelope [1]
      sampleDevicePayload (.fcm .unregistered) (by decide) rfl rfl
      (by decide) (by decide) (by decide) rfl (by decide),
   C2_nonretryable_error_ack.2.2 (fun _ => some [1]) (fun _ => some sampleActualPayload)
      { tokens := ["tok-1"] } (fun _ _ _ => .error (.fcm .unregistered)) sampleEnvelope [1]
      sampleActualPayload (.fcm .unregistered) (by decide) rfl rfl
      (by decide) (by decide) (by decide) rfl⟩

/-- C4: at one and the same successful topic send (provider message id
"projects/example/messages/42"), the primary topic handler echoes the true
provider id while the later revision (src/unnamed/part_010) answers 200
with an empty message_id, its `send` having discarded the id — the latent
defect the spec calls out. -/
theorem C4_topic_success_message_id :
    (pushTopicServeHTTP "POST" (some sampleEnvelope) (fun _ => some [1])
        (fun _ => some sampleTopicPayload)
        (fun _ _ _ _ => ("projects/example/messages/42", none))).fst =
      { status := 200, body := .processed "projects/example/messages/42" } ∧
    (pushTopicServeHTTPRev "POST" (some sampleEnvelope) (fun _ => some [1])
        (fun _ => some sampleTopicPayload)
        (fun _ _ _ _ => ("projects/example/messages/42", none))).fst =
      { status := 200, body := .processed "" } ∧
    ("" : String) ≠ "projects/example/messages/42" := by
  exact ⟨rfl, rfl, by decide⟩

/-- C5: the multi-token handler (modelled from the spec, its source being
absent from src/) validates `1 ≤ len(tokens) ≤ 500` before dispatch: 501
tokens → 400 with the gateway never invoked; 0 tokens → 400 with the
gateway never invoked; 1–500 tokens with the required fields present
proceed to the multicast send. -/
theorem C5_token_count_validation :
    (∀ (send : List String → String → String → Except GoErr BatchResponse)
       (req : PushDeviceRequest),
      req.tokens.length = 501 →
      (multiTokenServeHTTP "POST" (some req) send).fst.status = 400 ∧
      (multiTokenServeHTTP "POST" (some req) send).snd = []) ∧
    (∀ (send : List String → String → String → Except GoErr BatchResponse)
       (req : PushDeviceRequest),
      req.tokens.length = 0 →
      (multiTokenServeHTTP "POST" (some req) send).fst.status = 400 ∧
      (multiTokenServeHTTP "POST" (some req) send).snd = []) ∧
    (∀ (send : List String → String → String → Except GoErr BatchResponse)
       (req : PushDeviceRequest),
      req.title ≠ "" → req.body ≠ "" →
      1 ≤ req.tokens.length → req.tokens.length ≤ 500 →
      (multiTokenServeHTTP "POST" (some req) send).snd =
        [GatewayCall.sendToMultipleTokens req.tokens req.title req.body]) := by
  refine ⟨?_, ?_, ?_⟩
  · intro send req hlen
    by_cases h1 : req.title = "" <;> by_cases h2 : req.body = "" <;>
      simp [multiTokenServeHTTP, h1, h2, hlen]
  · intro send req hlen
    by_cases h1 : req.title = "" <;> by_cases h2 : req.body = "" <;>
      simp [multiTokenServeHTTP, h1, h2, hlen]
  · intro send req h1 h2 hge hle
    have hne0 : ¬ req.tokens.length = 0 := by omega
    have hle500 : ¬ req.tokens.length > 500 := by omega
    rcases hs : send req.tokens req.title req.body with e | br <;>
      simp [multiTokenServeHTTP, h1, h2, hne0, hle500, hs]

theorem C5_witness :
    ((multiTokenServeHTTP "POST"
        (some { title := "T", body := "B", tokens := List.replicate 501 "t" })
        (fun _ _ _ => .ok { successCount := 0, failureCount := 0 })).fst.status = 400 ∧
     (multiTokenServeHTTP "POST"
        (some { title := "T", body := "B", tokens := List.replicate 501 "t" })
        (fun _ _ _ => .ok { successCount := 0, failureCount := 0 })).snd = []) ∧
    (multiTokenServeHTTP "POST" (some { title := "T", body := "B", tokens := ["t1"] })
        (fun _ _ _ => .ok { successCount := 1, failureCount := 0 })).snd =
      [GatewayCall.sendToMultipleTokens ["t1"] "T" "B"] :=
  ⟨C5_token_count_validation.1 (fun _ _ _ => .ok { successCount := 0, failureCount := 0 })
      { title := "T", body := "B", tokens := List.replicate 501 "t" }
      (List.length_replicate 501 "t"),
   C5_token_count_validation.2.2 (fun _ _ _ => .ok { successCount := 1, failureCount := 0 })
      { title := "T", body := "B", tokens := ["t1"] } (by decide) (by decide)
      (by decide) (by decide)⟩

/-- A token of 4096 multibyte characters (each 3 UTF-8 bytes). -/
def bigMultibyteToken : String := String.mk (List.replicate 4096 (Char.ofNat 0x3042))

/-- A token of 4096 ASCII characters. -/
def asciiToken4096 : String := String.mk (List.replicate 4096 'a')

/-- The over-long branch of the registration handler, symbolically. -/
theorem registration_overlong_400 (t : String) (s : DeviceStore)
    (hne : goTrimSpace t ≠ "") (hgt : goStringLen (goTrimSpace t) > maxTokenLength) :
    registrationServeHTTP "POST" (some { token := t }) s =
      ({ status := 400, body := .text "Token exceeds maximum length" }, s) := by
  simp [registrationServeHTTP, hne, hgt]

/-- C7 is false as stated: this trimmed token has exactly 4096 characters,
yet the handler rejects it with 400 and never reaches the registry add,
because Go `len` counts UTF-8 bytes (here 12288). -/
theorem C7_counterexample :
    bigMultibyteToken.data.length = 4096 ∧
    goTrimSpace bigMultibyteToken = bigMultibyteToken ∧
    goStringLen bigMultibyteToken = 12288 ∧
    (registrationServeHTTP "POST" (some { token := bigMultibyteToken })
        NewDeviceStore).fst.status = 400 ∧
    (registrationServeHTTP "POST" (some { token := bigMultibyteToken })
        NewDeviceStore).snd = NewDeviceStore := by
  have hspace : goIsSpace (Char.ofNat 0x3042) = false := by decide
  have hchar : charUtf8Size (Char.ofNat 0x3042) = 3 := by decide
  have hdlen : bigMultibyteToken.data.length = 4096 := by
    show (List.replicate 4096 (Char.ofNat 0x3042)).length = 4096
    exact List.length_replicate 4096 (Char.ofNat 0x3042)
  have htrim : goTrimSpace bigMultibyteToken = bigMultibyteToken :=
    goTrimSpace_replicate (Char.ofNat 0x3042) 4096 hspace
  have hlen : goStringLen bigMultibyteToken = 12288 := by
    show goStringLen (String.mk (List.replicate 4096 (Char.ofNat 0x3042))) = 12288
    rw [goStringLen_replicate (Char.ofNat 0x3042) 4096, hchar]
  have hne : goTrimSpace bigMultibyteToken ≠ "" := by
    rw [htrim]
    show String.mk (List.replicate 4096 (Char.ofNat 0x3042)) ≠ ""
    apply string_mk_ne_empty
    intro h
    have hl := congrArg List.length h
    rw [List.length_replicate, List.length_nil] at hl
    exact absurd hl (by decide)
  have hgt : goStringLen (goTrimSpace bigMultibyteToken) > maxTokenLength := by
    rw [htrim, hlen, maxTokenLength]
    omega
  have h400 := registration_overlong_400 bigMultibyteToken NewDeviceStore hne hgt
  exact ⟨hdlen, htrim, hlen, by rw [h400], by rw [h400]⟩

/-- C7 (amended): the registration token is trimmed first; an empty trimmed
token → 400 with the registry untouched; a trimmed token longer than 4096
UTF-8 bytes (Go `len` counts bytes, so in particular any token of more than
4096 characters) → 400 with the registry untouched; a trimmed token of at
most 4096 bytes — e.g. exactly 4096 ASCII characters — is passed to the
registry add (201 if new, 409 if already present). -/
theorem C7_registration_validation (t : String) (s : DeviceStore) :
    (goTrimSpace t = "" →
      registrationServeHTTP "POST" (some { token := t }) s =
        ({ status := 400, body := .text "Token is required" }, s)) ∧
    (goTrimSpace t ≠ "" → goStringLen (goTrimSpace t) > maxTokenLength →
      registrationServeHTTP "POST" (some { token := t }) s =
        ({ status := 400, body := .text "Token exceeds maximum length" }, s)) ∧
    (goTrimSpace t ≠ "" → goStringLen (goTrimSpace t) ≤ maxTokenLength →
      (registrationServeHTTP "POST" (some { token := t }) s).snd =
        (AddToken s (goTrimSpace t)).fst ∧
      (registrationServeHTTP "POST" (some { token := t }) s).fst.status =
        (if (AddToken s (goTrimSpace t)).snd then 201 else 409)) := by
  refine ⟨?_, ?_, ?_⟩
  · intro hempty
    simp [registrationServeHTTP, hempty]
  · intro hne hgt
    simp [registrationServeHTTP, hne, hgt]
  · intro hne hle
    have hgt : ¬ goStringLen (goTrimSpace t) > maxTokenLength := by omega
    by_cases hadd : (AddToken s (goTrimSpace t)).snd <;>
      simp [registrationServeHTTP, hne, hgt, hadd]

theorem C7_registration_validation_witness :
    goTrimSpace asciiToken4096 ≠ "" ∧
    goStringLen (goTrimSpace asciiToken4096) ≤ maxTokenLength ∧
    ((registrationServeHTTP "POST" (some { token := asciiToken4096 })
        NewDeviceStore).snd =
      (AddToken NewDeviceStore (goTrimSpace asciiToken4096)).fst ∧
     (registrationServeHTTP "POST" (some { token := asciiToken4096 })
        NewDeviceStore).fst.status =
      (if (AddToken NewDeviceStore (goTrimSpace asciiToken4096)).snd then 201 else 409)) := by
  have hspace : goIsSpace 'a' = false := by decide
  have htrim : goTrimSpace asciiToken4096 = asciiToken4096 :=
    goTrimSpace_replicate 'a' 4096 hspace
  have hchar : charUtf8Size 'a' = 1 := by decide
  have hne : goTrimSpace asciiToken4096 ≠ "" := by
    rw [htrim]
    show String.mk (List.replicate 4096 'a') ≠ ""
    apply string_mk_ne_empty
    intro h
    have hl := congrArg List.length h
    rw [List.length_replicate, List.length_nil] at hl
    exact absurd hl (by decide)
  have hle : goStringLen (goTrimSpace asciiToken4096) ≤ maxTokenLength := by
    rw [htrim]
    show goStringLen (String.mk (List.replicate 4096 'a')) ≤ maxTokenLength
    rw [goStringLen_replicate 'a' 4096, hchar, maxTokenLength]
  exact ⟨hne, hle,
    (C7_registration_validation asciiToken4096 NewDeviceStore).2.2 hne hle⟩

end FcmRelay
